import Mathlib

/-!
Shallow embedding of the `ConnectionMaster/vscode-azuretools` sources relevant
to the verified claims: the `createContextValue` helper and the
`DeploymentsTreeItem` tree node from the `appservice` package, the
`registerSiteCommand`/`handleSiteErrors` error wrapper, and the `triage-actions`
stale-closer GitHub Action contract.

TypeScript `string | undefined` is embedded as `Option String`, thrown errors
as an explicit error value, network calls as function arguments carrying the
fetched data, and object mutation as state-to-state functions.
-/

/-- Boolean lexicographic comparison of character lists by code point, the
order used by the JavaScript `Array.prototype.sort()` default comparator on
the (ASCII) tag strings involved here. -/
def charListLe : List Char → List Char → Bool
  | [], _ => true
  | _ :: _, [] => false
  | a :: as, b :: bs => if a < b then true else if b < a then false else charListLe as bs

/-- String comparison via `charListLe` on the underlying character data. -/
def strLe (a b : String) : Bool :=
  charListLe a.data b.data

instance strLeDecidableRel : DecidableRel (fun a b : String => strLe a b = true) :=
  fun a b => instDecidableEqBool (strLe a b) true

/-- Modelled from the spec: the implementation of `createContextValue` is not
under `src` (only its declaration in `utils/index.d.ts` with the doc
"returns a sorted, unique string of values separated by `;`", and the spec's
"a deduped, alphabetized, semicolon-joined set of tags"). The values are
deduplicated, sorted, and joined with `;`. -/
def createContextValue (values : List String) : String :=
  String.intercalate ";" (List.insertionSort (fun a b : String => strLe a b = true) values.dedup)

/-- The `ScmType` string enum from `appservice/src/ScmType.ts` (imported by
`DeploymentsTreeItem.ts`); member values are the member names. -/
def ScmType.None : String := "None"

def ScmType.LocalGit : String := "LocalGit"

def ScmType.GitHub : String := "GitHub"

/-- A `ParsedSite`, abstracted to an identifier: `DeploymentsTreeItem` only
stores it and asks it for a client. -/
structure ParsedSite where
  siteId : Nat
deriving DecidableEq

/-- The `scmType` field of an ARM `SiteConfig` (`string | undefined`). -/
structure SiteConfig where
  scmType : Option String
deriving DecidableEq

/-- The `repoUrl` field of an ARM `SiteSourceControl` (`string | undefined`). -/
structure SiteSourceControl where
  repoUrl : Option String
deriving DecidableEq

/-- The options bag taken by the `DeploymentsTreeItem` constructor. -/
structure DeploymentsTreeItemOptions where
  site : ParsedSite
  contextValuesToAdd : Option (List String)
deriving DecidableEq

/-- The observable state of a `DeploymentsTreeItem`: its fixed fields and the
two private fields `_scmType` and `_repoUrl`. -/
structure DeploymentsTreeItem where
  parentId : Nat
  site : ParsedSite
  label : String
  childTypeLabel : String
  suppressMaskLabel : Bool
  contextValuesToAdd : List String
  scmType : Option String
  repoUrl : Option String
deriving DecidableEq

/-- The static `DeploymentsTreeItem.contextValueConnected`. -/
def DeploymentsTreeItem.contextValueConnected : String := "deploymentsConnected"

/-- The static `DeploymentsTreeItem.contextValueUnconnected`. -/
def DeploymentsTreeItem.contextValueUnconnected : String := "deploymentsUnconnected"

/-- The `DeploymentsTreeItem` constructor: stores the site, defaults
`contextValuesToAdd` to `[]` (`options?.contextValuesToAdd || []`), and leaves
the private fields unset; `label`, `childTypeLabel` and `suppressMaskLabel`
are the field initializers of the class. -/
def DeploymentsTreeItem.construct (parent : Nat) (options : DeploymentsTreeItemOptions) :
    DeploymentsTreeItem where
  parentId := parent
  site := options.site
  label := "Deployments"
  childTypeLabel := "Deployment"
  suppressMaskLabel := true
  contextValuesToAdd := options.contextValuesToAdd.getD []
  scmType := none
  repoUrl := none

/-- The `contextValue` getter:
`createContextValue([this._scmType === ScmType.None ? contextValueUnconnected
: contextValueConnected, ...this.contextValuesToAdd])`. -/
def DeploymentsTreeItem.contextValue (self : DeploymentsTreeItem) : String :=
  createContextValue
    ((if self.scmType = some ScmType.None then DeploymentsTreeItem.contextValueUnconnected
      else DeploymentsTreeItem.contextValueConnected) :: self.contextValuesToAdd)

/-- The `init` method: fetches the site config and source control through the client and
assigns `_scmType` and `_repoUrl`; the fetched values are arguments here. -/
def DeploymentsTreeItem.init (self : DeploymentsTreeItem) (siteConfig : SiteConfig)
    (sourceControl : SiteSourceControl) : DeploymentsTreeItem :=
  { self with scmType := siteConfig.scmType, repoUrl := sourceControl.repoUrl }

/-- The `refreshImpl` method: same two assignments as `init`, transcribed separately from
its own body. -/
def DeploymentsTreeItem.refreshImpl (self : DeploymentsTreeItem) (siteConfig : SiteConfig)
    (sourceControl : SiteSourceControl) : DeploymentsTreeItem :=
  { self with scmType := siteConfig.scmType, repoUrl := sourceControl.repoUrl }

/-- A child compared by `compareChildrenImpl`: either a `GenericTreeItem`
(the `instanceof GenericTreeItem` branch) or a `DeploymentTreeItem` with its
`receivedTime.valueOf()` in milliseconds. -/
inductive TreeChild where
  | generic : TreeChild
  | deployment (receivedTime : Int) : TreeChild
deriving DecidableEq

/-- The `compareChildrenImpl` method: `1` if the first child is a `GenericTreeItem`,
else `-1` if the second is, else `ti2.receivedTime.valueOf() -
ti1.receivedTime.valueOf()`. -/
def DeploymentsTreeItem.compareChildrenImpl : TreeChild → TreeChild → Int
  | .generic, _ => 1
  | .deployment _, .generic => -1
  | .deployment t1, .deployment t2 => t2 - t1

/-- One awaited site-client call made by `DeploymentsTreeItem`;
`retryKuduCall m` is a call routed through the repository's `retryKuduCall`
wrapper (imported from `appservice/src/utils/kuduUtils`) with method name
`m`. -/
inductive SiteOp where
  | createClient : SiteOp
  | getSiteConfig : SiteOp
  | getSourceControl : SiteOp
  | retryKuduCall (methodName : String) : SiteOp
deriving DecidableEq

/-- Whether a client call is routed through the repository's `retryKuduCall`
retry wrapper. -/
def SiteOp.isRetryWrapped : SiteOp → Bool
  | .retryKuduCall _ => true
  | _ => false

/-- The client calls awaited by `init`, in source order. -/
def DeploymentsTreeItem.initOps : List SiteOp :=
  [.createClient, .getSiteConfig, .getSourceControl]

/-- The client calls awaited by `loadMoreChildrenImpl`, in source order:
`await this.init(context)`, then `createClient`, then
`retryKuduCall(context, 'getDeployResults', ...)` around
`client.getDeployResults(context)`. -/
def DeploymentsTreeItem.loadMoreChildrenOps : List SiteOp :=
  DeploymentsTreeItem.initOps ++ [.createClient, .retryKuduCall "getDeployResults"]

/-- An `IParsedError` as used by `handleSiteErrors`: its `errorType` and
`message`. -/
structure IParsedError where
  errorType : String
  message : String
deriving DecidableEq

/-- A thrown value as seen by `registerSiteCommand`: either an arbitrary
thrown value identified by how it parses, or a constructed
`new Error(message)`. -/
inductive SiteError where
  | thrown (parsed : IParsedError) : SiteError
  | jsError (message : String) : SiteError
deriving DecidableEq

/-- Modelled from the spec: `parseError` of `vscode-azureextensionui` is not
under `src`; per the spec, errors are parsed from SDK/HTTP responses into a
type and message. An arbitrary thrown value parses to its recorded form; a
constructed `Error` parses to error type "Error" and its message. -/
def parseError : SiteError → IParsedError
  | .thrown p => p
  | .jsError m => { errorType := "Error", message := m }

/-- The `context.errorHandling` record, reduced to the one flag
`handleSiteErrors` touches. -/
structure IErrorHandlingContext where
  suppressReportIssue : Bool
deriving DecidableEq

/-- The `IActionContext` passed to the wrapped callback. -/
structure IActionContext where
  errorHandling : IErrorHandlingContext
deriving DecidableEq

/-- The localized troubleshooting-tips string of `handleSiteErrors`. -/
def troubleshooting502or503 : String :=
  "View troubleshooting tips [here](https://aka.ms/AA772mm)."

/-- The `handleSiteErrors` helper: parses the error; on error type '502' or '503' it
sets `context.errorHandling.suppressReportIssue = true` and throws
`new Error(parsedError.message + ' ' + troubleshooting)`; otherwise it
re-throws the original error. The result is the updated context paired with
the thrown error. -/
def handleSiteErrors (context : IActionContext) (error : SiteError) :
    IActionContext × SiteError :=
  let parsedError := parseError error
  if parsedError.errorType = "502" ∨ parsedError.errorType = "503" then
    ({ context with errorHandling := { suppressReportIssue := true } },
     .jsError (parsedError.message ++ " " ++ troubleshooting502or503))
  else
    (context, error)

/-- The wrapper `registerSiteCommand` registers around the callback: it
returns the callback's result on success and hands any thrown error to
`handleSiteErrors` (which always throws). -/
def registerSiteCommandWrapper {α : Type} (callback : IActionContext → Except SiteError α)
    (context : IActionContext) : Except (IActionContext × SiteError) α :=
  match callback context with
  | .ok v => .ok v
  | .error e => .error (handleSiteErrors context e)

/-- The configuration inputs of the stale-closer, from
`triage-actions/stale-closer/action.yml`. -/
structure StaleCloserConfig where
  closeDays : Nat
  warnDays : Nat
  closeComment : String
  warnComment : String
  upvotesRequired : Nat
  numCommentsOverride : Nat
  candidateMilestone : String
  labelsToExclude : List String
deriving DecidableEq

/-- A GitHub issue as seen by the stale-closer: milestone, upvotes, comment
count, age in days, labels. -/
structure TriageIssue where
  number : Nat
  milestone : Option String
  upvotes : Nat
  numComments : Nat
  ageDays : Nat
  labels : List String
deriving DecidableEq

/-- Modelled from the spec: the stale-closer's decision code (`index.js`) is
not under `src`; only `action.yml` declaring its inputs is. Per the spec
("closes issues exactly when upvotes < threshold and age > closeDays")
together with the input contract of `action.yml` (`upvotesRequired`: upvotes
required to prevent automatic closure; `numCommentsOverride`: comments
required to prevent automatic closure; `labelsToExclude`: labels excluded
from automatic closure; `candidateMilestone`: the milestone whose issues are
checked), an issue in the candidate milestone is closed when it is older than
`closeDays` and neither enough upvotes, nor enough comments, nor an excluded
label prevents closure. -/
def staleCloserCloses (cfg : StaleCloserConfig) (issue : TriageIssue) : Bool :=
  decide (issue.milestone = some cfg.candidateMilestone) &&
  decide (cfg.closeDays < issue.ageDays) &&
  decide (issue.upvotes < cfg.upvotesRequired) &&
  decide (issue.numComments < cfg.numCommentsOverride) &&
  issue.labels.all (fun l => !(cfg.labelsToExclude.contains l))

/-- One declared input of a GitHub Action: its name, whether it is marked
`required: true`, and whether it declares a `default`. -/
structure ActionInput where
  name : String
  required : Bool
  hasDefault : Bool
deriving DecidableEq

/-- A GitHub Action declaration: metadata, inputs, outputs, and the `runs`
section. -/
structure ActionDecl where
  name : String
  description : String
  inputs : List ActionInput
  outputs : List String
  runsUsing : String
  runsMain : String
deriving DecidableEq

/-- Transcription of `triage-actions/stale-closer/action.yml`: eleven inputs
in file order, no `outputs` key, `runs.using: node12`, `runs.main:
index.js`. -/
def staleCloserAction : ActionDecl where
  name := "Stale Closer"
  description := "Closes stale issues that have not had activity or upvotes"
  inputs :=
    [⟨"token", false, true⟩,
     ⟨"closeDays", true, false⟩,
     ⟨"closeComment", true, false⟩,
     ⟨"warnDays", true, false⟩,
     ⟨"warnComment", true, false⟩,
     ⟨"upvotesRequired", true, false⟩,
     ⟨"numCommentsOverride", true, false⟩,
     ⟨"candidateMilestone", true, false⟩,
     ⟨"labelsToExclude", false, false⟩,
     ⟨"staleLabel", false, false⟩,
     ⟨"readonly", false, false⟩]
  outputs := []
  runsUsing := "node12"
  runsMain := "index.js"

/-- Concrete stale-closer configuration used as a test point: close after 30
days, warn 4 days before, 5 upvotes or 10 comments prevent closure, no
excluded labels. -/
def staleCexCfg : StaleCloserConfig :=
  ⟨30, 4, "closing as stale", "about to close", 5, 10, "candidates", []⟩

/-- A candidate-milestone issue that is old and under-upvoted but has many
comments. -/
def staleCexIssue : TriageIssue :=
  ⟨1, some "candidates", 0, 25, 60, []⟩

/-- A candidate-milestone issue that is old, under-upvoted and
under-commented. -/
def staleWitIssue : TriageIssue :=
  ⟨2, some "candidates", 0, 0, 60, []⟩

theorem charListLe_total : ∀ a b, charListLe a b = true ∨ charListLe b a = true := by
  intro a
  induction a with
  | nil => intro b; left; rfl
  | cons x xs ih =>
    intro b
    cases b with
    | nil => right; rfl
    | cons y ys =>
      simp only [charListLe]
      rcases lt_trichotomy x y with h | h | h
      · left; simp [h]
      · subst h
        simp only [lt_irrefl, if_false]
        exact ih ys
      · right; simp [h]

theorem charListLe_trans :
    ∀ a b c, charListLe a b = true → charListLe b c = true → charListLe a c = true := by
  intro a
  induction a with
  | nil => intro b c _ _; rfl
  | cons x xs ih =>
    intro b c h1 h2
    cases b with
    | nil => simp [charListLe] at h1
    | cons y ys =>
      cases c with
      | nil => simp [charListLe] at h2
      | cons z zs =>
        simp only [charListLe] at h1 h2 ⊢
        rcases lt_trichotomy x y with hxy | hxy | hxy
        · rcases lt_trichotomy y z with hyz | hyz | hyz
          · simp [lt_trans hxy hyz]
          · subst hyz; simp [hxy]
          · exfalso; simp [hyz, lt_asymm hyz] at h2
        · subst hxy
          rcases lt_trichotomy x z with hxz | hxz | hxz
          · simp [hxz]
          · subst hxz
            simp only [lt_irrefl, if_false] at h1 h2 ⊢
            exact ih _ _ h1 h2
          · exfalso
            simp only [lt_irrefl, if_false] at h1
            simp [hxz, lt_asymm hxz] at h2
        · exfalso; simp [hxy, lt_asymm hxy] at h1

theorem handleSiteErrors_ite (context : IActionContext) (error : SiteError) :
    handleSiteErrors context error =
      if (parseError error).errorType = "502" ∨ (parseError error).errorType = "503" then
        ({ context with errorHandling := { suppressReportIssue := true } },
         SiteError.jsError ((parseError error).message ++ " " ++ troubleshooting502or503))
      else (context, error) := rfl

theorem handleSiteErrors_other (context : IActionContext) (error : SiteError)
    (h1 : (parseError error).errorType ≠ "502") (h2 : (parseError error).errorType ≠ "503") :
    handleSiteErrors context error = (context, error) := by
  rw [handleSiteErrors_ite, if_neg (fun hc => hc.elim h1 h2)]

/-- C1: `createContextValue` returns the semicolon-join of a list of tags
that is duplicate-free, sorted, and has exactly the input tags as members;
and the `contextValue` getter of `DeploymentsTreeItem` is `createContextValue`
applied to its connected/unconnected base tag followed by
`contextValuesToAdd`. -/
theorem createContextValue_sorted_unique_semicolon :
    (∀ values : List String, ∃ l : List String,
        createContextValue values = String.intercalate ";" l ∧ l.Nodup ∧
        l.Sorted (fun a b => strLe a b = true) ∧ ∀ t, t ∈ l ↔ t ∈ values) ∧
    ∀ s : DeploymentsTreeItem, DeploymentsTreeItem.contextValue s =
      createContextValue
        ((if s.scmType = some ScmType.None then DeploymentsTreeItem.contextValueUnconnected
          else DeploymentsTreeItem.contextValueConnected) :: s.contextValuesToAdd) := by
  constructor
  · intro values
    haveI : IsTotal String (fun a b => strLe a b = true) :=
      ⟨fun a b => charListLe_total a.data b.data⟩
    haveI : IsTrans String (fun a b => strLe a b = true) :=
      ⟨fun a b c => charListLe_trans a.data b.data c.data⟩
    refine ⟨List.insertionSort _ values.dedup, rfl, ?_, ?_, ?_⟩
    · exact ((List.perm_insertionSort _ _).nodup_iff).mpr (List.nodup_dedup values)
    · exact List.sorted_insertionSort _ _
    · intro t
      rw [List.mem_insertionSort, List.mem_dedup]
  · intro s
    rfl

/-- C2: when the parsed error type is '502' or '503', `handleSiteErrors` sets
`suppressReportIssue` and throws a new error made of the parsed message
followed by the troubleshooting-tips link; any other error type is re-thrown
unchanged, without the friendlier message. -/
theorem handleSiteErrors_friendly_502_503 (context : IActionContext) (error : SiteError)
    (h : (parseError error).errorType = "502" ∨ (parseError error).errorType = "503") :
    (handleSiteErrors context error =
      ({ context with errorHandling := { suppressReportIssue := true } },
       SiteError.jsError ((parseError error).message ++ " " ++ troubleshooting502or503)) ∧
     (handleSiteErrors context error).1.errorHandling.suppressReportIssue = true) ∧
    ∀ e2 : SiteError, (parseError e2).errorType ≠ "502" → (parseError e2).errorType ≠ "503" →
      handleSiteErrors context e2 = (context, e2) := by
  have hpos : handleSiteErrors context error =
      ({ context with errorHandling := { suppressReportIssue := true } },
       SiteError.jsError ((parseError error).message ++ " " ++ troubleshooting502or503)) := by
    rw [handleSiteErrors_ite, if_pos h]
  exact ⟨⟨hpos, by rw [hpos]⟩, fun e2 h1 h2 => handleSiteErrors_other context e2 h1 h2⟩

theorem handleSiteErrors_friendly_502_503_witness :
    handleSiteErrors ⟨⟨false⟩⟩ (SiteError.thrown ⟨"502", "Bad Gateway"⟩) =
      (⟨⟨true⟩⟩, SiteError.jsError ("Bad Gateway" ++ " " ++ troubleshooting502or503)) :=
  ((handleSiteErrors_friendly_502_503 ⟨⟨false⟩⟩ (SiteError.thrown ⟨"502", "Bad Gateway"⟩)
      (Or.inl rfl)).1).1

/-- C3: counterexample — `loadMoreChildrenImpl` does route its
`getDeployResults` call through the repository-implemented `retryKuduCall`
wrapper, so it is not the case that every client call it makes avoids a
repository-implemented retry wrapper. -/
theorem loadMoreChildren_uses_retry_wrapper :
    SiteOp.retryKuduCall "getDeployResults" ∈ DeploymentsTreeItem.loadMoreChildrenOps ∧
    ¬ ∀ op ∈ DeploymentsTreeItem.loadMoreChildrenOps, op.isRetryWrapped = false := by
  decide

/-- C3 (amended): `loadMoreChildrenImpl` invokes the repository's
`retryKuduCall` retry wrapper exactly once, with method name
'getDeployResults'; how many underlying SDK calls result is delegated to that
wrapper. -/
theorem loadMoreChildren_retryKudu_exactly_once :
    DeploymentsTreeItem.loadMoreChildrenOps.filter SiteOp.isRetryWrapped =
      [SiteOp.retryKuduCall "getDeployResults"] := by
  decide

/-- C4: counterexample — an issue in the candidate milestone whose upvotes
are below `upvotesRequired` and whose age exceeds `closeDays` is nevertheless
not closed, because its comment count reaches `numCommentsOverride`. -/
theorem staleCloser_upvotes_age_only_false :
    staleCexIssue.milestone = some staleCexCfg.candidateMilestone ∧
    staleCexIssue.upvotes < staleCexCfg.upvotesRequired ∧
    staleCexCfg.closeDays < staleCexIssue.ageDays ∧
    staleCloserCloses staleCexCfg staleCexIssue = false := by
  decide

/-- C4 (amended): an issue in the candidate milestone is closed exactly when
its age exceeds `closeDays`, its upvotes are below `upvotesRequired`, its
comment count is below `numCommentsOverride`, and it carries no excluded
label. -/
theorem staleCloser_closes_iff (cfg : StaleCloserConfig) (issue : TriageIssue)
    (hm : issue.milestone = some cfg.candidateMilestone) :
    staleCloserCloses cfg issue = true ↔
      (cfg.closeDays < issue.ageDays ∧ issue.upvotes < cfg.upvotesRequired ∧
       issue.numComments < cfg.numCommentsOverride ∧
       ∀ l ∈ issue.labels, l ∉ cfg.labelsToExclude) := by
  simp only [staleCloserCloses, hm, List.all_eq_true, Bool.and_eq_true, decide_eq_true_eq,
    Bool.not_eq_true', ← Bool.not_eq_true, List.elem_iff]
  tauto

theorem staleCloser_closes_iff_witness :
    staleCloserCloses staleCexCfg staleWitIssue = true ↔
      (staleCexCfg.closeDays < staleWitIssue.ageDays ∧
       staleWitIssue.upvotes < staleCexCfg.upvotesRequired ∧
       staleWitIssue.numComments < staleCexCfg.numCommentsOverride ∧
       ∀ l ∈ staleWitIssue.labels, l ∉ staleCexCfg.labelsToExclude) :=
  staleCloser_closes_iff staleCexCfg staleWitIssue rfl

/-- C5: the wrapper registered by `registerSiteCommand` returns the
callback's result unchanged on success; on a callback failure it always ends
in a thrown error — the `handleSiteErrors` result, which for error types
other than '502'/'503' is the original error unchanged — and never returns
normally. -/
theorem registerSiteCommand_rethrows {α : Type} (callback : IActionContext → Except SiteError α)
    (context : IActionContext) :
    (∀ v, callback context = .ok v → registerSiteCommandWrapper callback context = .ok v) ∧
    ∀ e, callback context = .error e →
      registerSiteCommandWrapper callback context = .error (handleSiteErrors context e) ∧
      (∀ v, registerSiteCommandWrapper callback context ≠ .ok v) ∧
      ((parseError e).errorType ≠ "502" → (parseError e).errorType ≠ "503" →
        registerSiteCommandWrapper callback context = .error (context, e)) := by
  constructor
  · intro v hv
    simp [registerSiteCommandWrapper, hv]
  · intro e he
    refine ⟨?_, ?_, ?_⟩
    · simp [registerSiteCommandWrapper, he]
    · intro v
      simp [registerSiteCommandWrapper, he]
    · intro h1 h2
      simp [registerSiteCommandWrapper, he, handleSiteErrors_other context e h1 h2]

theorem registerSiteCommand_rethrows_witness :
    registerSiteCommandWrapper
        (fun _ => (Except.error (SiteError.thrown ⟨"404", "Not found"⟩) : Except SiteError Unit))
        ⟨⟨false⟩⟩ =
      Except.error (⟨⟨false⟩⟩, SiteError.thrown ⟨"404", "Not found"⟩) :=
  (((registerSiteCommand_rethrows
        (fun _ => (Except.error (SiteError.thrown ⟨"404", "Not found"⟩) : Except SiteError Unit))
        ⟨⟨false⟩⟩).2 (SiteError.thrown ⟨"404", "Not found"⟩) rfl).2.2 (by decide) (by decide))

/-- C6: the stale-closer action declares exactly the eleven inputs of
`action.yml` — the token, the day thresholds, the comment texts, the upvote
and comment thresholds, the candidate milestone, the optional label settings,
and the dry-run flag — and declares no outputs. -/
theorem staleCloserAction_inputs_no_outputs :
    staleCloserAction.inputs.map ActionInput.name =
      ["token", "closeDays", "closeComment", "warnDays", "warnComment", "upvotesRequired",
       "numCommentsOverride", "candidateMilestone", "labelsToExclude", "staleLabel",
       "readonly"] ∧
    staleCloserAction.outputs = [] :=
  ⟨rfl, rfl⟩

/-- C7: the `contextValue` getter uses the 'deploymentsUnconnected' base tag
exactly when the stored scm type equals `ScmType.None`; any other stored scm
type — including the unset state — yields the 'deploymentsConnected' base
tag, so a freshly constructed item reports itself as connected. -/
theorem deploymentsTreeItem_base_tag (s : DeploymentsTreeItem) :
    (s.scmType = some ScmType.None →
      DeploymentsTreeItem.contextValue s =
        createContextValue (DeploymentsTreeItem.contextValueUnconnected :: s.contextValuesToAdd)) ∧
    (s.scmType ≠ some ScmType.None →
      DeploymentsTreeItem.contextValue s =
        createContextValue (DeploymentsTreeItem.contextValueConnected :: s.contextValuesToAdd)) ∧
    ∀ (parent : Nat) (options : DeploymentsTreeItemOptions),
      (DeploymentsTreeItem.construct parent options).scmType = none ∧
      DeploymentsTreeItem.contextValue (DeploymentsTreeItem.construct parent options) =
        createContextValue
          (DeploymentsTreeItem.contextValueConnected :: (options.contextValuesToAdd.getD [])) := by
  refine ⟨fun h => ?_, fun h => ?_, fun parent options => ⟨rfl, rfl⟩⟩
  · rw [DeploymentsTreeItem.contextValue, if_pos h]
  · rw [DeploymentsTreeItem.contextValue, if_neg h]

theorem deploymentsTreeItem_base_tag_witness :
    DeploymentsTreeItem.contextValue (DeploymentsTreeItem.construct 0 ⟨⟨0⟩, none⟩) =
      createContextValue [DeploymentsTreeItem.contextValueConnected] :=
  (deploymentsTreeItem_base_tag (DeploymentsTreeItem.construct 0 ⟨⟨0⟩, none⟩)).2.1 (by decide)

/-- C8: `compareChildrenImpl` is positive whenever the first child is a
`GenericTreeItem` (also when both are), negative when only the second is, and
otherwise is the second deployment's received time minus the first's — so
deployments sort most-recent first and the generic item sorts last. -/
theorem compareChildrenImpl_ordering :
    (∀ c2, 0 < DeploymentsTreeItem.compareChildrenImpl .generic c2) ∧
    (∀ t1, DeploymentsTreeItem.compareChildrenImpl (.deployment t1) .generic < 0) ∧
    (∀ t1 t2, DeploymentsTreeItem.compareChildrenImpl (.deployment t1) (.deployment t2) =
      t2 - t1) :=
  ⟨fun _ => Int.zero_lt_one, fun _ => Int.neg_neg_of_pos Int.zero_lt_one, fun _ _ => rfl⟩

/-- C9: `init` and `refreshImpl` set `_scmType` to the fetched site config's
`scmType` and `_repoUrl` to the fetched source control's `repoUrl`, and leave
every other field of the tree item unchanged. -/
theorem init_refresh_frame (s : DeploymentsTreeItem) (config : SiteConfig)
    (sc : SiteSourceControl) :
    ((s.init config sc).scmType = config.scmType ∧
     (s.init config sc).repoUrl = sc.repoUrl ∧
     (s.init config sc).site = s.site ∧
     (s.init config sc).label = s.label ∧
     (s.init config sc).childTypeLabel = s.childTypeLabel ∧
     (s.init config sc).contextValuesToAdd = s.contextValuesToAdd ∧
     (s.init config sc).suppressMaskLabel = s.suppressMaskLabel ∧
     (s.init config sc).parentId = s.parentId) ∧
    ((s.refreshImpl config sc).scmType = config.scmType ∧
     (s.refreshImpl config sc).repoUrl = sc.repoUrl ∧
     (s.refreshImpl config sc).site = s.site ∧
     (s.refreshImpl config sc).label = s.label ∧
     (s.refreshImpl config sc).childTypeLabel = s.childTypeLabel ∧
     (s.refreshImpl config sc).contextValuesToAdd = s.contextValuesToAdd ∧
     (s.refreshImpl config sc).suppressMaskLabel = s.suppressMaskLabel ∧
     (s.refreshImpl config sc).parentId = s.parentId) :=
  ⟨⟨rfl, rfl, rfl, rfl, rfl, rfl, rfl, rfl⟩, ⟨rfl, rfl, rfl, rfl, rfl, rfl, rfl, rfl⟩⟩
